import Mathlib

/-!
Formal model of the driver-selection protocol implemented in
`src/process/drivers/types.rs`.

The Rust code resolves, per capability category, a concrete backend driver by
probing the environment (command existence, version support, environment
variables), memoizing the result in an `Option` cell via `Option::get_or_insert`.
Note that `get_or_insert` takes its argument *by value*: the probe-and-select
`match` expression is evaluated eagerly at the call site, before the cached
option is consulted.  We model that evaluation order exactly.

External collaborators (the `blue_build_utils::check_command_exists` probe, the
per-backend `is_supported_version` predicates and `VERSION_REQ` constants, and
the process environment) are modeled as an explicit `Env` record.  A Rust
`panic!` is modeled as `Except.error` carrying the panic message.
-/

/-- The inspection backend variants (`InspectDriverType` in the source). -/
inductive InspectDriverType
  | Skopeo
  | Podman
  | Docker
deriving DecidableEq

/-- The build backend variants (`BuildDriverType` in the source). -/
inductive BuildDriverType
  | Buildah
  | Podman
  | Docker
deriving DecidableEq

/-- The signing backend variants (`SigningDriverType` in the source).  The
`Sigstore` variant is gated behind the optional `sigstore` compile-time
feature; following the spec we model the feature flag as a runtime boolean in
`Env`, with `Sigstore` present in the type. -/
inductive SigningDriverType
  | Cosign
  | Sigstore
deriving DecidableEq

/-- The run backend variants (`RunDriverType` in the source). -/
inductive RunDriverType
  | Podman
  | Docker
deriving DecidableEq

/-- The CI-context variants (`CiDriverType` in the source). -/
inductive CiDriverType
  | Local
  | Gitlab
  | Github
deriving DecidableEq

/-- An observable probe event performed during driver resolution: a
command-existence check, a version-support query, or an environment-variable
read. -/
inductive Probe
  | cmdCheck (name : String)
  | versionCheck (name : String)
  | envRead (name : String)
deriving DecidableEq

/-- The external environment consulted by the resolvers: which commands exist
on PATH, whether each versioned backend satisfies its minimum version
requirement, the collaborator-supplied version-requirement strings, the two CI
indicator variables, and whether the `sigstore` feature is enabled. -/
structure Env where
  cmdExists : String → Bool
  dockerSupported : Bool
  podmanSupported : Bool
  buildahSupported : Bool
  dockerVersionReq : String
  podmanVersionReq : String
  buildahVersionReq : String
  gitlabCi : Option String
  githubActions : Option String
  sigstoreEnabled : Bool

/-- The panic message of the inspect resolver fatal path (source lines 36-40). -/
def inspectPanicMsg : String :=
  "Could not determine inspection strategy. You need either skopeo, docker, or podman"

/-- The panic message of the build resolver fatal path (source lines 70-79). -/
def buildPanicMsg (env : Env) : String :=
  "Could not determine strategy, need either docker version " ++
    env.dockerVersionReq ++ ", podman version " ++ env.podmanVersionReq ++
    ", or buildah version " ++ env.buildahVersionReq ++ " to continue"

/-- The panic message of the run resolver fatal path (source lines 137-146).
Note it mentions a buildah requirement even though Run only considers docker
and podman, exactly as the source does. -/
def runPanicMsg (env : Env) : String :=
  "Could not determine strategy, need either docker version " ++
    env.dockerVersionReq ++ ", podman version " ++ env.podmanVersionReq ++
    ", or buildah version " ++ env.buildahVersionReq ++ " to continue"

/-- Models `Option::get_or_insert` applied to an eagerly evaluated argument, as
in `*self.get_or_insert(match ...)`: the argument (result plus the probes its
evaluation performed) is computed first; if that evaluation panicked the call
panics with the cache untouched; otherwise a `some` cache wins and a `none`
cache is filled with the computed value.  Returns (returned value or panic,
new cache state, probes performed). -/
def getOrInsertEager {T : Type} (st : Option T) (arg : Except String T × List Probe) :
    Except String T × Option T × List Probe :=
  match arg with
  | (Except.error msg, pr) => (Except.error msg, st, pr)
  | (Except.ok v, pr) =>
    match st with
    | some cur => (Except.ok cur, some cur, pr)
    | none => (Except.ok v, some v, pr)

/-- The `match` expression of `DetermineDriver<InspectDriverType>` (source
lines 27-41): the scrutinee checks skopeo, docker and podman in that order, the
arms pick the first command present, and the wildcard arm panics. -/
def inspectMatch (env : Env) : Except String InspectDriverType × List Probe :=
  let base := [Probe.cmdCheck "skopeo", Probe.cmdCheck "docker", Probe.cmdCheck "podman"]
  if env.cmdExists "skopeo" then (Except.ok InspectDriverType.Skopeo, base)
  else if env.cmdExists "docker" then (Except.ok InspectDriverType.Docker, base)
  else if env.cmdExists "podman" then (Except.ok InspectDriverType.Podman, base)
  else (Except.error inspectPanicMsg, base)

/-- `DetermineDriver<InspectDriverType>::determine_driver` (source lines 26-43):
eager evaluation of the match, then `get_or_insert`. -/
def determineDriverInspect (env : Env) (st : Option InspectDriverType) :
    Except String InspectDriverType × Option InspectDriverType × List Probe :=
  getOrInsertEager st (inspectMatch env)

/-- The `match` expression of `DetermineDriver<BuildDriverType>` (source lines
56-80).  The scrutinee checks docker, podman and buildah; each arm has a
version-support guard that is only evaluated when the arm pattern matches (the
command exists) and control reaches that arm. -/
def buildMatch (env : Env) : Except String BuildDriverType × List Probe :=
  let base := [Probe.cmdCheck "docker", Probe.cmdCheck "podman", Probe.cmdCheck "buildah"]
  let d := env.cmdExists "docker"
  let p := env.cmdExists "podman"
  let b := env.cmdExists "buildah"
  let pr1 := base ++ (if d then [Probe.versionCheck "docker"] else [])
  if d && env.dockerSupported then (Except.ok BuildDriverType.Docker, pr1)
  else
    let pr2 := pr1 ++ (if p then [Probe.versionCheck "podman"] else [])
    if p && env.podmanSupported then (Except.ok BuildDriverType.Podman, pr2)
    else
      let pr3 := pr2 ++ (if b then [Probe.versionCheck "buildah"] else [])
      if b && env.buildahSupported then (Except.ok BuildDriverType.Buildah, pr3)
      else (Except.error (buildPanicMsg env), pr3)

/-- `DetermineDriver<BuildDriverType>::determine_driver` (source lines 54-82). -/
def determineDriverBuild (env : Env) (st : Option BuildDriverType) :
    Except String BuildDriverType × Option BuildDriverType × List Probe :=
  getOrInsertEager st (buildMatch env)

/-- The `match` expression of `DetermineDriver<RunDriverType>` (source lines
131-147): docker then podman, each with a version guard; wildcard panics. -/
def runMatch (env : Env) : Except String RunDriverType × List Probe :=
  let base := [Probe.cmdCheck "docker", Probe.cmdCheck "podman"]
  let d := env.cmdExists "docker"
  let p := env.cmdExists "podman"
  let pr1 := base ++ (if d then [Probe.versionCheck "docker"] else [])
  if d && env.dockerSupported then (Except.ok RunDriverType.Docker, pr1)
  else
    let pr2 := pr1 ++ (if p then [Probe.versionCheck "podman"] else [])
    if p && env.podmanSupported then (Except.ok RunDriverType.Podman, pr2)
    else (Except.error (runPanicMsg env), pr2)

/-- `DetermineDriver<RunDriverType>::determine_driver` (source lines 126-150). -/
def determineDriverRun (env : Env) (st : Option RunDriverType) :
    Except String RunDriverType × Option RunDriverType × List Probe :=
  getOrInsertEager st (runMatch env)

/-- `DetermineDriver<SigningDriverType>::determine_driver` (source lines
92-109).  With the `sigstore` feature enabled the body is
`*self.get_or_insert(check_command_exists("cosign").map_or(Sigstore, Cosign))`;
this expression never panics.  With the feature disabled the body is the bare
expression `SigningDriverType::Cosign`: no probe, no cache access. -/
def determineDriverSigning (env : Env) (st : Option SigningDriverType) :
    SigningDriverType × Option SigningDriverType × List Probe :=
  if env.sigstoreEnabled then
    let v := if env.cmdExists "cosign" then SigningDriverType.Cosign
             else SigningDriverType.Sigstore
    match st with
    | some cur => (cur, some cur, [Probe.cmdCheck "cosign"])
    | none => (v, some v, [Probe.cmdCheck "cosign"])
  else (SigningDriverType.Cosign, st, [])

/-- Modelled from the spec: the names of the two CI indicator environment
variables (the constants `GITLAB_CI` and `GITHUB_ACTIONS` live in the
`blue_build_utils` crate, outside `src/`; the spec calls them "a GitLab-CI
indicator variable and a GitHub-Actions indicator variable"). -/
def gitlabCiVarName : String := "GITLAB_CI"

/-- Modelled from the spec: the GitHub Actions indicator variable name; see
`gitlabCiVarName`. -/
def githubActionsVarName : String := "GITHUB_ACTIONS"

/-- `DetermineDriver<CiDriverType>::determine_driver` (source lines 159-171):
the scrutinee reads the two indicator variables; (set, unset) picks Gitlab,
(unset, set) picks Github, everything else Local.  No panic path. -/
def determineDriverCi (env : Env) (st : Option CiDriverType) :
    CiDriverType × Option CiDriverType × List Probe :=
  let v := match env.gitlabCi, env.githubActions with
    | some _, none => CiDriverType.Gitlab
    | none, some _ => CiDriverType.Github
    | _, _ => CiDriverType.Local
  let pr := [Probe.envRead gitlabCiVarName, Probe.envRead githubActionsVarName]
  match st with
  | some cur => (cur, some cur, pr)
  | none => (v, some v, pr)

/-- `From<RunDriverType> for String` (source lines 117-124). -/
def runDriverTypeToString : RunDriverType → String
  | RunDriverType.Podman => "podman"
  | RunDriverType.Docker => "docker"

/-- The `Platform` enumeration (source lines 173-183). -/
inductive Platform
  | Native
  | LinuxAmd64
  | LinuxArm64
deriving DecidableEq

/-- `Platform::arch` (source lines 188-194). -/
def Platform.arch : Platform → String
  | Platform.Native => "native"
  | Platform.LinuxAmd64 => "amd64"
  | Platform.LinuxArm64 => "arm64"

/-- The `Display` implementation for `Platform` (source lines 197-209). -/
def Platform.displayStr : Platform → String
  | Platform.Native => "native"
  | Platform.LinuxAmd64 => "linux/amd64"
  | Platform.LinuxArm64 => "linux/arm64"

/-- The `#[default]` attribute on `Platform::Native` (source line 175). -/
def Platform.defaultPlatform : Platform := Platform.Native

/-- A JSON-like value, modeling `serde_json::Value` as used by the label map. -/
inductive JsonValue
  | null
  | boolVal (b : Bool)
  | numVal (n : Int)
  | strVal (s : String)
  | arrVal (xs : List JsonValue)
  | objVal (fields : List (String × JsonValue))

/-- `serde_json::Value::as_str`: `some` exactly on string values. -/
def JsonValue.as_str : JsonValue → Option String
  | JsonValue.strVal s => some s
  | _ => none

/-- `ImageMetadata` (source lines 211-216): a label map and a digest. -/
structure ImageMetadata where
  labels : List (String × JsonValue)
  digest : String

/-- Modelled from the spec: the well-known version label key (the constant
`IMAGE_VERSION_LABEL` lives in `blue_build_utils`, outside `src/`; the spec
test exercise gives the key as `io.blue-build.version`). -/
def IMAGE_VERSION_LABEL : String := "io.blue-build.version"

/-- Drops a single leading `v` or `V` from a character list, tolerating the
usual lenient-semver alpha prefix. -/
def dropLeadingV : List Char → List Char
  | [] => []
  | c :: rest => if c = 'v' || c = 'V' then rest else c :: rest

/-- Numeric value of a list of decimal digit characters. -/
def digitsToNat (cs : List Char) : Nat :=
  cs.foldl (fun acc c => acc * 10 + (c.toNat - 48)) 0

/-- Modelled from the spec: the external `lenient_semver::parse` collaborator,
restricted to the major component (all that `get_version` uses).  Lenient
parsing tolerates a leading non-numeric prefix such as `v`, missing
minor/patch components and trailing build metadata; it fails when no leading
major digits can be found, and on success the major component is the leading
run of digits. -/
def lenientParseMajor (s : String) : Option Nat :=
  let cs := dropLeadingV s.data
  let ds := cs.takeWhile Char.isDigit
  if ds.isEmpty then none else some (digitsToNat ds)

/-- `ImageMetadata::get_version` (source lines 218-228): look up the version
label; `?` on the lookup, `as_str` chained with the lenient parse, `?` on the
result, then project the major component. -/
def ImageMetadata.get_version (m : ImageMetadata) : Option Nat :=
  (m.labels.lookup IMAGE_VERSION_LABEL).bind fun v =>
    v.as_str.bind fun s => lenientParseMajor s

/-- The proposition that `msg` contains `needle` as a contiguous substring. -/
def mentionsTok (needle msg : String) : Prop :=
  ∃ pre post : List Char, msg.data = pre ++ needle.data ++ post

deriving instance DecidableEq for Except

/-- An environment where every command exists and every versioned backend is
supported; no CI variables; sigstore feature enabled. -/
def envAllCmds : Env :=
  { cmdExists := fun _ => true, dockerSupported := true, podmanSupported := true,
    buildahSupported := true, dockerVersionReq := ">=23", podmanVersionReq := ">=4",
    buildahVersionReq := ">=1.24", gitlabCi := none, githubActions := none,
    sigstoreEnabled := true }

/-- An environment where no command exists at all; sigstore feature enabled. -/
def envNoCmds : Env :=
  { cmdExists := fun _ => false, dockerSupported := false, podmanSupported := false,
    buildahSupported := false, dockerVersionReq := ">=23", podmanVersionReq := ">=4",
    buildahVersionReq := ">=1.24", gitlabCi := none, githubActions := none,
    sigstoreEnabled := true }

/-- All commands present but the installed docker version is unsupported while
podman and buildah are supported. -/
def envDockerUnsupPodman : Env :=
  { envAllCmds with dockerSupported := false }

/-- Only the buildah command exists, with a supported version. -/
def envBuildahOnly : Env :=
  { envAllCmds with cmdExists := fun s => s == "buildah" }

/-- Only docker and podman exist. -/
def envDockerPodman : Env :=
  { envAllCmds with cmdExists := fun s => s == "docker" || s == "podman" }

/-- Only podman exists. -/
def envPodmanOnly : Env :=
  { envAllCmds with cmdExists := fun s => s == "podman" }

/-- The GitLab CI indicator variable is set, the GitHub one is not. -/
def envGitlab : Env := { envAllCmds with gitlabCi := some "true" }

/-- The GitHub Actions indicator variable is set, the GitLab one is not. -/
def envGithub : Env := { envAllCmds with githubActions := some "true" }

/-- Both CI indicator variables are set. -/
def envBothCi : Env :=
  { envAllCmds with gitlabCi := some "true", githubActions := some "true" }

/-- The sigstore feature is disabled; everything else as in `envAllCmds`. -/
def envSigstoreOff : Env := { envAllCmds with sigstoreEnabled := false }

lemma getOrInsertEager_some {T : Type} (cur : T) (arg : Except String T × List Probe) :
    (∀ v, (getOrInsertEager (some cur) arg).1 = Except.ok v → v = cur) ∧
    (getOrInsertEager (some cur) arg).2.1 = some cur ∧
    (getOrInsertEager (some cur) arg).2.2 = arg.2 := by
  rcases arg with ⟨res, pr⟩
  cases res <;> simp [getOrInsertEager]

lemma inspectMatch_probes_ne (env : Env) : (inspectMatch env).2 ≠ [] := by
  rcases h1 : env.cmdExists "skopeo" <;> rcases h2 : env.cmdExists "docker" <;>
    rcases h3 : env.cmdExists "podman" <;> simp [inspectMatch, h1, h2, h3]

lemma buildMatch_probes_ne (env : Env) : (buildMatch env).2 ≠ [] := by
  rcases h1 : env.cmdExists "docker" <;> rcases h2 : env.cmdExists "podman" <;>
    rcases h3 : env.cmdExists "buildah" <;> rcases h4 : env.dockerSupported <;>
    rcases h5 : env.podmanSupported <;> rcases h6 : env.buildahSupported <;>
    simp [buildMatch, h1, h2, h3, h4, h5, h6]

lemma runMatch_probes_ne (env : Env) : (runMatch env).2 ≠ [] := by
  rcases h1 : env.cmdExists "docker" <;> rcases h2 : env.cmdExists "podman" <;>
    rcases h3 : env.dockerSupported <;> rcases h4 : env.podmanSupported <;>
    simp [runMatch, h1, h2, h3, h4]

lemma determineInspect_some (env : Env) (cur : InspectDriverType) :
    (∀ v, (determineDriverInspect env (some cur)).1 = Except.ok v → v = cur) ∧
    (determineDriverInspect env (some cur)).2.1 = some cur ∧
    (determineDriverInspect env (some cur)).2.2 ≠ [] := by
  have h := getOrInsertEager_some cur (inspectMatch env)
  refine ⟨h.1, h.2.1, ?_⟩
  have h3 : (determineDriverInspect env (some cur)).2.2 = (inspectMatch env).2 := h.2.2
  rw [h3]
  exact inspectMatch_probes_ne env

lemma determineBuild_some (env : Env) (cur : BuildDriverType) :
    (∀ v, (determineDriverBuild env (some cur)).1 = Except.ok v → v = cur) ∧
    (determineDriverBuild env (some cur)).2.1 = some cur ∧
    (determineDriverBuild env (some cur)).2.2 ≠ [] := by
  have h := getOrInsertEager_some cur (buildMatch env)
  refine ⟨h.1, h.2.1, ?_⟩
  have h3 : (determineDriverBuild env (some cur)).2.2 = (buildMatch env).2 := h.2.2
  rw [h3]
  exact buildMatch_probes_ne env

lemma determineRun_some (env : Env) (cur : RunDriverType) :
    (∀ v, (determineDriverRun env (some cur)).1 = Except.ok v → v = cur) ∧
    (determineDriverRun env (some cur)).2.1 = some cur ∧
    (determineDriverRun env (some cur)).2.2 ≠ [] := by
  have h := getOrInsertEager_some cur (runMatch env)
  refine ⟨h.1, h.2.1, ?_⟩
  have h3 : (determineDriverRun env (some cur)).2.2 = (runMatch env).2 := h.2.2
  rw [h3]
  exact runMatch_probes_ne env

lemma buildPanicMsg_data (env : Env) : (buildPanicMsg env).data =
    "Could not determine strategy, need either docker version ".data ++
    env.dockerVersionReq.data ++ ", podman version ".data ++ env.podmanVersionReq.data ++
    ", or buildah version ".data ++ env.buildahVersionReq.data ++ " to continue".data := by
  simp [buildPanicMsg, String.data_append]

lemma buildPanicMsg_mentions_docker (env : Env) : mentionsTok "docker" (buildPanicMsg env) := by
  refine ⟨"Could not determine strategy, need either ".data,
    " version ".data ++ env.dockerVersionReq.data ++ ", podman version ".data ++
      env.podmanVersionReq.data ++ ", or buildah version ".data ++
      env.buildahVersionReq.data ++ " to continue".data, ?_⟩
  rw [buildPanicMsg_data]
  have h : "Could not determine strategy, need either docker version ".data =
      "Could not determine strategy, need either ".data ++ "docker".data ++
        " version ".data := by decide
  rw [h]
  simp [List.append_assoc]

lemma buildPanicMsg_mentions_podman (env : Env) : mentionsTok "podman" (buildPanicMsg env) := by
  refine ⟨"Could not determine strategy, need either docker version ".data ++
      env.dockerVersionReq.data ++ ", ".data,
    " version ".data ++ env.podmanVersionReq.data ++ ", or buildah version ".data ++
      env.buildahVersionReq.data ++ " to continue".data, ?_⟩
  rw [buildPanicMsg_data]
  have h : ", podman version ".data = ", ".data ++ "podman".data ++ " version ".data := by
    decide
  rw [h]
  simp [List.append_assoc]

lemma buildPanicMsg_mentions_buildah (env : Env) : mentionsTok "buildah" (buildPanicMsg env) := by
  refine ⟨"Could not determine strategy, need either docker version ".data ++
      env.dockerVersionReq.data ++ ", podman version ".data ++
      env.podmanVersionReq.data ++ ", or ".data,
    " version ".data ++ env.buildahVersionReq.data ++ " to continue".data, ?_⟩
  rw [buildPanicMsg_data]
  have h : ", or buildah version ".data = ", or ".data ++ "buildah".data ++ " version ".data := by
    decide
  rw [h]
  simp [List.append_assoc]

lemma buildPanicMsg_mentions_dockerReq (env : Env) :
    mentionsTok env.dockerVersionReq (buildPanicMsg env) := by
  refine ⟨"Could not determine strategy, need either docker version ".data,
    ", podman version ".data ++ env.podmanVersionReq.data ++
      ", or buildah version ".data ++ env.buildahVersionReq.data ++ " to continue".data, ?_⟩
  rw [buildPanicMsg_data]
  simp [List.append_assoc]

lemma buildPanicMsg_mentions_podmanReq (env : Env) :
    mentionsTok env.podmanVersionReq (buildPanicMsg env) := by
  refine ⟨"Could not determine strategy, need either docker version ".data ++
      env.dockerVersionReq.data ++ ", podman version ".data,
    ", or buildah version ".data ++ env.buildahVersionReq.data ++ " to continue".data, ?_⟩
  rw [buildPanicMsg_data]
  simp [List.append_assoc]

lemma buildPanicMsg_mentions_buildahReq (env : Env) :
    mentionsTok env.buildahVersionReq (buildPanicMsg env) := by
  refine ⟨"Could not determine strategy, need either docker version ".data ++
      env.dockerVersionReq.data ++ ", podman version ".data ++
      env.podmanVersionReq.data ++ ", or buildah version ".data,
    " to continue".data, ?_⟩
  rw [buildPanicMsg_data]

lemma inspectPanicMsg_mentions_skopeo : mentionsTok "skopeo" inspectPanicMsg :=
  ⟨"Could not determine inspection strategy. You need either ".data,
    ", docker, or podman".data, by decide⟩

lemma inspectPanicMsg_mentions_docker : mentionsTok "docker" inspectPanicMsg :=
  ⟨"Could not determine inspection strategy. You need either skopeo, ".data,
    ", or podman".data, by decide⟩

lemma inspectPanicMsg_mentions_podman : mentionsTok "podman" inspectPanicMsg :=
  ⟨"Could not determine inspection strategy. You need either skopeo, docker, or ".data,
    [], by decide⟩

/-- Image metadata carrying the version label with value `1.4.2`. -/
def mdV142 : ImageMetadata :=
  { labels := [(IMAGE_VERSION_LABEL, JsonValue.strVal "1.4.2")], digest := "d" }

/-- Image metadata carrying the version label with value `v2`. -/
def mdV2 : ImageMetadata :=
  { labels := [(IMAGE_VERSION_LABEL, JsonValue.strVal "v2")], digest := "d" }

/-- Image metadata with no labels at all. -/
def mdMissing : ImageMetadata := { labels := [], digest := "d" }

/-- Image metadata whose version label is a JSON number, not a string. -/
def mdNonString : ImageMetadata :=
  { labels := [(IMAGE_VERSION_LABEL, JsonValue.numVal 3)], digest := "d" }

/-- Image metadata whose version label does not parse as a version. -/
def mdBadVersion : ImageMetadata :=
  { labels := [(IMAGE_VERSION_LABEL, JsonValue.strVal "not-a-version")], digest := "d" }

/-- C1 counterexample: with the inspect choice already resolved to Skopeo (the
cached option is `some Skopeo`) and every command installed, a subsequent
`determine_driver` call does return the identical choice, yet it still performs
command-existence probes — `get_or_insert` evaluates its argument eagerly — so
the claim's "performs no probes" part is false. -/
theorem C1_repeat_call_reprobes_cex :
    (determineDriverInspect envAllCmds (some InspectDriverType.Skopeo)).1 =
      Except.ok InspectDriverType.Skopeo ∧
    (determineDriverInspect envAllCmds (some InspectDriverType.Skopeo)).2.2 ≠ [] := by
  decide

/-- C1 amended: for every driver category, once the cached option is `some`,
every subsequent `determine_driver` call leaves the cache unchanged and, when
it returns at all, returns the identical cached DriverChoice; however each call
re-executes the probes (the probe list is never empty). -/
theorem C1_memoized_value_amended (env : Env) (i : InspectDriverType)
    (b : BuildDriverType) (r : RunDriverType) (c : CiDriverType)
    (s : SigningDriverType) (hs : env.sigstoreEnabled = true) :
    ((∀ v, (determineDriverInspect env (some i)).1 = Except.ok v → v = i) ∧
      (determineDriverInspect env (some i)).2.1 = some i ∧
      (determineDriverInspect env (some i)).2.2 ≠ []) ∧
    ((∀ v, (determineDriverBuild env (some b)).1 = Except.ok v → v = b) ∧
      (determineDriverBuild env (some b)).2.1 = some b ∧
      (determineDriverBuild env (some b)).2.2 ≠ []) ∧
    ((∀ v, (determineDriverRun env (some r)).1 = Except.ok v → v = r) ∧
      (determineDriverRun env (some r)).2.1 = some r ∧
      (determineDriverRun env (some r)).2.2 ≠ []) ∧
    ((determineDriverCi env (some c)).1 = c ∧
      (determineDriverCi env (some c)).2.1 = some c ∧
      (determineDriverCi env (some c)).2.2 ≠ []) ∧
    ((determineDriverSigning env (some s)).1 = s ∧
      (determineDriverSigning env (some s)).2.1 = some s ∧
      (determineDriverSigning env (some s)).2.2 ≠ []) := by
  refine ⟨determineInspect_some env i, determineBuild_some env b, determineRun_some env r,
    ?_, ?_⟩
  · simp [determineDriverCi]
  · simp [determineDriverSigning, hs]

/-- C1 witness: the amended theorem applied to the all-commands environment
with each category resolved to a concrete cached choice. -/
theorem C1_memoized_value_witness :
    envAllCmds.sigstoreEnabled = true ∧
    (determineDriverInspect envAllCmds (some InspectDriverType.Skopeo)).2.1 =
      some InspectDriverType.Skopeo ∧
    (determineDriverCi envAllCmds (some CiDriverType.Local)).1 = CiDriverType.Local ∧
    (determineDriverSigning envAllCmds (some SigningDriverType.Cosign)).2.2 ≠ [] := by
  have h := C1_memoized_value_amended envAllCmds InspectDriverType.Skopeo
    BuildDriverType.Docker RunDriverType.Docker CiDriverType.Local
    SigningDriverType.Cosign (by decide)
  exact ⟨by decide, h.1.2.1, h.2.2.2.1.1, h.2.2.2.2.2.2⟩

/-- C2 counterexample: with an explicit Build override (`some Docker`) cached
and no candidate tool installed, `determine_driver` aborts instead of returning
the override, and it performs probes rather than zero; the claim's "never
aborts" and "zero probes" parts are false. -/
theorem C2_override_abort_cex :
    (determineDriverBuild envNoCmds (some BuildDriverType.Docker)).1.isOk = false ∧
    (determineDriverBuild envNoCmds (some BuildDriverType.Docker)).2.2 ≠ [] := by
  decide

/-- C2 amended: given an explicit override (the option starts as
`some override`), the Build and Run resolvers never replace the override — the
cache still holds it after the call — and every call that returns (rather than
aborting) returns exactly the override value, regardless of which commands are
installed; however probes are still performed, and when no candidate qualifies
the call aborts despite the override. -/
theorem C2_override_preserved (env : Env) (ov : BuildDriverType) (rv : RunDriverType) :
    ((determineDriverBuild env (some ov)).2.1 = some ov ∧
      ∀ v, (determineDriverBuild env (some ov)).1 = Except.ok v → v = ov) ∧
    ((determineDriverRun env (some rv)).2.1 = some rv ∧
      ∀ v, (determineDriverRun env (some rv)).1 = Except.ok v → v = rv) := by
  have hb := getOrInsertEager_some ov (buildMatch env)
  have hr := getOrInsertEager_some rv (runMatch env)
  exact ⟨⟨hb.2.1, hb.1⟩, ⟨hr.2.1, hr.1⟩⟩

/-- C2 witness: with every command installed and valid, a cached Buildah
override survives the call and the returned value is the override itself even
though Docker would win a fresh probe. -/
theorem C2_override_preserved_witness :
    (determineDriverBuild envAllCmds (some BuildDriverType.Buildah)).2.1 =
      some BuildDriverType.Buildah ∧
    (determineDriverRun envAllCmds (some RunDriverType.Podman)).2.1 =
      some RunDriverType.Podman ∧
    BuildDriverType.Buildah = BuildDriverType.Buildah := by
  have h := C2_override_preserved envAllCmds BuildDriverType.Buildah RunDriverType.Podman
  exact ⟨h.1.1, h.2.1, h.1.2 BuildDriverType.Buildah (by decide)⟩

/-- C3: Build resolution with an empty cache picks Docker when docker is
present with a supported version, otherwise Podman when podman is present with
a supported version, otherwise Buildah likewise; when no candidate qualifies it
aborts with a diagnostic that references docker, podman and buildah and each
one's minimum required version. -/
theorem C3_build_priority (env : Env) :
    ((env.cmdExists "docker" && env.dockerSupported) = true →
      (determineDriverBuild env none).1 = Except.ok BuildDriverType.Docker) ∧
    ((env.cmdExists "docker" && env.dockerSupported) = false →
      (env.cmdExists "podman" && env.podmanSupported) = true →
      (determineDriverBuild env none).1 = Except.ok BuildDriverType.Podman) ∧
    ((env.cmdExists "docker" && env.dockerSupported) = false →
      (env.cmdExists "podman" && env.podmanSupported) = false →
      (env.cmdExists "buildah" && env.buildahSupported) = true →
      (determineDriverBuild env none).1 = Except.ok BuildDriverType.Buildah) ∧
    ((env.cmdExists "docker" && env.dockerSupported) = false →
      (env.cmdExists "podman" && env.podmanSupported) = false →
      (env.cmdExists "buildah" && env.buildahSupported) = false →
      (determineDriverBuild env none).1 = Except.error (buildPanicMsg env) ∧
      mentionsTok "docker" (buildPanicMsg env) ∧
      mentionsTok "podman" (buildPanicMsg env) ∧
      mentionsTok "buildah" (buildPanicMsg env) ∧
      mentionsTok env.dockerVersionReq (buildPanicMsg env) ∧
      mentionsTok env.podmanVersionReq (buildPanicMsg env) ∧
      mentionsTok env.buildahVersionReq (buildPanicMsg env)) := by
  refine ⟨?_, ?_, ?_, ?_⟩
  · intro h1
    simp [determineDriverBuild, buildMatch, getOrInsertEager, h1]
  · intro h1 h2
    simp [determineDriverBuild, buildMatch, getOrInsertEager, h1, h2]
  · intro h1 h2 h3
    simp [determineDriverBuild, buildMatch, getOrInsertEager, h1, h2, h3]
  · intro h1 h2 h3
    exact ⟨by simp [determineDriverBuild, buildMatch, getOrInsertEager, h1, h2, h3],
      buildPanicMsg_mentions_docker env, buildPanicMsg_mentions_podman env,
      buildPanicMsg_mentions_buildah env, buildPanicMsg_mentions_dockerReq env,
      buildPanicMsg_mentions_podmanReq env, buildPanicMsg_mentions_buildahReq env⟩

/-- C3 witness: the four cases at concrete environments — all tools valid picks
Docker; docker present but unsupported with valid podman picks Podman; only
buildah picks Buildah; nothing installed aborts with the diagnostic. -/
theorem C3_build_priority_witness :
    (determineDriverBuild envAllCmds none).1 = Except.ok BuildDriverType.Docker ∧
    (determineDriverBuild envDockerUnsupPodman none).1 = Except.ok BuildDriverType.Podman ∧
    (determineDriverBuild envBuildahOnly none).1 = Except.ok BuildDriverType.Buildah ∧
    (determineDriverBuild envNoCmds none).1 = Except.error (buildPanicMsg envNoCmds) := by
  refine ⟨(C3_build_priority envAllCmds).1 (by decide),
    (C3_build_priority envDockerUnsupPodman).2.1 (by decide) (by decide),
    (C3_build_priority envBuildahOnly).2.2.1 (by decide) (by decide) (by decide),
    ((C3_build_priority envNoCmds).2.2.2 (by decide) (by decide) (by decide)).1⟩

/-- C4: inspection resolution with an empty cache returns the first of Skopeo,
Docker, Podman whose command is present on PATH; with none of the three
present it aborts with a message naming skopeo, docker and podman. -/
theorem C4_inspect_order (env : Env) :
    (env.cmdExists "skopeo" = true →
      (determineDriverInspect env none).1 = Except.ok InspectDriverType.Skopeo) ∧
    (env.cmdExists "skopeo" = false → env.cmdExists "docker" = true →
      (determineDriverInspect env none).1 = Except.ok InspectDriverType.Docker) ∧
    (env.cmdExists "skopeo" = false → env.cmdExists "docker" = false →
      env.cmdExists "podman" = true →
      (determineDriverInspect env none).1 = Except.ok InspectDriverType.Podman) ∧
    (env.cmdExists "skopeo" = false → env.cmdExists "docker" = false →
      env.cmdExists "podman" = false →
      (determineDriverInspect env none).1 = Except.error inspectPanicMsg ∧
      mentionsTok "skopeo" inspectPanicMsg ∧
      mentionsTok "docker" inspectPanicMsg ∧
      mentionsTok "podman" inspectPanicMsg) := by
  refine ⟨?_, ?_, ?_, ?_⟩
  · intro h1
    simp [determineDriverInspect, inspectMatch, getOrInsertEager, h1]
  · intro h1 h2
    simp [determineDriverInspect, inspectMatch, getOrInsertEager, h1, h2]
  · intro h1 h2 h3
    simp [determineDriverInspect, inspectMatch, getOrInsertEager, h1, h2, h3]
  · intro h1 h2 h3
    exact ⟨by simp [determineDriverInspect, inspectMatch, getOrInsertEager, h1, h2, h3],
      inspectPanicMsg_mentions_skopeo, inspectPanicMsg_mentions_docker,
      inspectPanicMsg_mentions_podman⟩

/-- C4 witness: the four inspect cases at concrete environments. -/
theorem C4_inspect_order_witness :
    (determineDriverInspect envAllCmds none).1 = Except.ok InspectDriverType.Skopeo ∧
    (determineDriverInspect envDockerPodman none).1 = Except.ok InspectDriverType.Docker ∧
    (determineDriverInspect envPodmanOnly none).1 = Except.ok InspectDriverType.Podman ∧
    (determineDriverInspect envNoCmds none).1 = Except.error inspectPanicMsg := by
  refine ⟨(C4_inspect_order envAllCmds).1 (by decide),
    (C4_inspect_order envDockerPodman).2.1 (by decide) (by decide),
    (C4_inspect_order envPodmanOnly).2.2.1 (by decide) (by decide) (by decide),
    ((C4_inspect_order envNoCmds).2.2.2 (by decide) (by decide) (by decide)).1⟩

/-- C5: CI-context resolution with an empty cache is the total four-case
function of the two indicator variables — GitLab set and GitHub unset yields
Gitlab, GitHub set and GitLab unset yields Github, both or neither set yields
Local; the model is total so resolution never fails. -/
theorem C5_ci_four_cases (env : Env) :
    (env.gitlabCi.isSome = true → env.githubActions.isSome = false →
      (determineDriverCi env none).1 = CiDriverType.Gitlab) ∧
    (env.gitlabCi.isSome = false → env.githubActions.isSome = true →
      (determineDriverCi env none).1 = CiDriverType.Github) ∧
    (env.gitlabCi.isSome = env.githubActions.isSome →
      (determineDriverCi env none).1 = CiDriverType.Local) := by
  rcases hg : env.gitlabCi with _ | g <;> rcases hh : env.githubActions with _ | a <;>
    simp [determineDriverCi, hg, hh]

/-- C5 witness: the four CI cases at concrete environments. -/
theorem C5_ci_four_cases_witness :
    (determineDriverCi envGitlab none).1 = CiDriverType.Gitlab ∧
    (determineDriverCi envGithub none).1 = CiDriverType.Github ∧
    (determineDriverCi envBothCi none).1 = CiDriverType.Local ∧
    (determineDriverCi envAllCmds none).1 = CiDriverType.Local := by
  refine ⟨(C5_ci_four_cases envGitlab).1 (by decide) (by decide),
    (C5_ci_four_cases envGithub).2.1 (by decide) (by decide),
    (C5_ci_four_cases envBothCi).2.2 (by decide),
    (C5_ci_four_cases envAllCmds).2.2 (by decide)⟩

/-- C6: signing resolution with an empty cache never fails — with the sigstore
capability enabled it returns Sigstore exactly when the cosign command is
absent and Cosign exactly when cosign is present; with the capability disabled
it always returns Cosign. -/
theorem C6_signing_total (env : Env) :
    (env.sigstoreEnabled = true →
      ((determineDriverSigning env none).1 = SigningDriverType.Sigstore ↔
        env.cmdExists "cosign" = false)) ∧
    (env.sigstoreEnabled = true →
      ((determineDriverSigning env none).1 = SigningDriverType.Cosign ↔
        env.cmdExists "cosign" = true)) ∧
    (env.sigstoreEnabled = false →
      (determineDriverSigning env none).1 = SigningDriverType.Cosign) := by
  refine ⟨?_, ?_, ?_⟩ <;> intro h <;>
    rcases hc : env.cmdExists "cosign" <;> simp [determineDriverSigning, h, hc]

/-- C6 witness: cosign absent with the capability enabled yields Sigstore;
cosign present yields Cosign; capability disabled yields Cosign. -/
theorem C6_signing_total_witness :
    (determineDriverSigning envNoCmds none).1 = SigningDriverType.Sigstore ∧
    (determineDriverSigning envAllCmds none).1 = SigningDriverType.Cosign ∧
    (determineDriverSigning envSigstoreOff none).1 = SigningDriverType.Cosign := by
  refine ⟨((C6_signing_total envNoCmds).1 (by decide)).mpr (by decide),
    ((C6_signing_total envAllCmds).2.1 (by decide)).mpr (by decide),
    (C6_signing_total envSigstoreOff).2.2 (by decide)⟩

/-- C7: `get_version` is total and never raises — it returns `none` when the
version label is absent, when the label value is not a JSON string, and when
lenient parsing fails; otherwise it returns the parsed major component; and
the lenient parser maps `1.4.2` to major 1 and `v2` to major 2. -/
theorem C7_get_version_total (m : ImageMetadata) :
    (m.labels.lookup IMAGE_VERSION_LABEL = none → m.get_version = none) ∧
    (∀ v, m.labels.lookup IMAGE_VERSION_LABEL = some v → v.as_str = none →
      m.get_version = none) ∧
    (∀ v s, m.labels.lookup IMAGE_VERSION_LABEL = some v → v.as_str = some s →
      lenientParseMajor s = none → m.get_version = none) ∧
    (∀ v s mj, m.labels.lookup IMAGE_VERSION_LABEL = some v → v.as_str = some s →
      lenientParseMajor s = some mj → m.get_version = some mj) ∧
    lenientParseMajor "1.4.2" = some 1 ∧ lenientParseMajor "v2" = some 2 := by
  refine ⟨?_, ?_, ?_, ?_, by decide, by decide⟩
  · intro h
    simp [ImageMetadata.get_version, h]
  · intro v h1 h2
    simp [ImageMetadata.get_version, h1, h2]
  · intro v s h1 h2 h3
    simp [ImageMetadata.get_version, h1, h2, h3]
  · intro v s mj h1 h2 h3
    simp [ImageMetadata.get_version, h1, h2, h3]

/-- C7 witness: the spec's concrete exercises — `1.4.2` yields major 1, `v2`
yields major 2, a missing label, a non-string label and an unparsable label
all yield an empty result. -/
theorem C7_get_version_total_witness :
    mdV142.get_version = some 1 ∧ mdV2.get_version = some 2 ∧
    mdMissing.get_version = none ∧ mdNonString.get_version = none ∧
    mdBadVersion.get_version = none := by
  refine ⟨(C7_get_version_total mdV142).2.2.2.1 (JsonValue.strVal "1.4.2") "1.4.2" 1
      rfl rfl (by decide),
    (C7_get_version_total mdV2).2.2.2.1 (JsonValue.strVal "v2") "v2" 2 rfl rfl (by decide),
    (C7_get_version_total mdMissing).1 rfl,
    (C7_get_version_total mdNonString).2.1 (JsonValue.numVal 3) rfl rfl,
    (C7_get_version_total mdBadVersion).2.2.1 (JsonValue.strVal "not-a-version")
      "not-a-version" rfl rfl (by decide)⟩

/-- C8: the platform descriptor is a pure total lookup — Native displays as
`native` with arch `native`, LinuxAmd64 as `linux/amd64` with arch `amd64`,
LinuxArm64 as `linux/arm64` with arch `arm64`, and the default selector is
Native. -/
theorem C8_platform_lookup :
    Platform.Native.displayStr = "native" ∧ Platform.Native.arch = "native" ∧
    Platform.LinuxAmd64.displayStr = "linux/amd64" ∧
    Platform.LinuxAmd64.arch = "amd64" ∧
    Platform.LinuxArm64.displayStr = "linux/arm64" ∧
    Platform.LinuxArm64.arch = "arm64" ∧
    Platform.defaultPlatform = Platform.Native := by
  decide

/-- C9: the conversion from RunDriverType to String maps Podman to `podman`
and Docker to `docker`; since the enumeration has exactly these two variants,
this covers every RunDriverType value. -/
theorem C9_run_to_string :
    runDriverTypeToString RunDriverType.Podman = "podman" ∧
    runDriverTypeToString RunDriverType.Docker = "docker" := by
  decide

/-- C10: with the sigstore capability disabled, signing resolution returns
Cosign, leaves the cached option exactly as it was (a starting `none` stays
`none`), and performs no probe at all. -/
theorem C10_signing_disabled_frame (env : Env) (st : Option SigningDriverType)
    (h : env.sigstoreEnabled = false) :
    determineDriverSigning env st = (SigningDriverType.Cosign, st, []) := by
  simp [determineDriverSigning, h]

/-- C10 witness: the frame property at the concrete disabled environment with
an empty cache. -/
theorem C10_signing_disabled_frame_witness :
    envSigstoreOff.sigstoreEnabled = false ∧
    determineDriverSigning envSigstoreOff none = (SigningDriverType.Cosign, none, []) :=
  ⟨by decide, C10_signing_disabled_frame envSigstoreOff none (by decide)⟩
